import Mathlib

/-
  Verification development for the searchai repository.

  The definitions below are a shallow embedding of the Python sources:
  - searchai/utils/validation.py   (validate_query)
  - searchai/search/crew_search.py (CrewSearchEngine.search, _parse_results,
                                    perform_web_search)
  - searchai/db/db_handler.py      (log_user_query, update_query_status,
                                    store_search_results, log_generated_document)
  - searchai/reasoning/gemini_llm.py (process_with_gemini post-processing,
                                    _create_prompt source enumeration)
  - searchai/cli/interface.py      (process_search)

  Python string operations (strip, split, startswith, endswith, slicing,
  substring containment, upper) are embedded as structural functions over
  `List Char`, so that every definition evaluates inside the kernel.
  External effects (the Serper/crew backend call, the Gemini call, the
  renderers) are abstracted as explicit outcome parameters; the database is
  an explicit record of row lists.
-/

deriving instance DecidableEq for Except

namespace Searchai

/-! ### Python string primitives -/

/-- The whitespace characters stripped by Python `str.strip()` (ASCII part). -/
def isSpace (c : Char) : Bool :=
  c == ' ' || c == '\t' || c == '\n' || c == '\r' || c == '\x0b' || c == '\x0c'

/-- `hasPrefixL p s` : the char list `p` is a prefix of `s`. -/
def hasPrefixL : List Char → List Char → Bool
  | [], _ => true
  | _ :: _, [] => false
  | p :: ps, c :: cs => p == c && hasPrefixL ps cs

/-- `containsL pat s` : Python `pat in s` (substring test). -/
def containsL (pat : List Char) : List Char → Bool
  | [] => hasPrefixL pat []
  | c :: cs => hasPrefixL pat (c :: cs) || containsL pat cs

/-- Worker for `splitL`: `skip` counts separator characters still to be
consumed after a separator match, `acc` holds the current token reversed. -/
def splitSkip (sep : List Char) : List Char → Nat → List Char → List (List Char)
  | acc, _, [] => [acc.reverse]
  | acc, k + 1, _ :: cs => splitSkip sep acc k cs
  | acc, 0, c :: cs =>
    if hasPrefixL sep (c :: cs) then
      acc.reverse :: splitSkip sep [] (sep.length - 1) cs
    else
      splitSkip sep (c :: acc) 0 cs

/-- Python `s.split(sep)` for a non-empty separator, on char lists. -/
def splitL (sep s : List Char) : List (List Char) :=
  splitSkip sep [] 0 s

/-- Python `s.strip()` on char lists. -/
def trimL (s : List Char) : List Char :=
  ((s.dropWhile isSpace).reverse.dropWhile isSpace).reverse

/-- Python `s.strip()`. -/
def pyStrip (s : String) : String := ⟨trimL s.data⟩

/-- Python `s.split(sep)` (non-empty `sep`). -/
def pySplit (s sep : String) : List String :=
  (splitL sep.data s.data).map String.mk

/-- Python `sub in s`. -/
def pyContainsStr (s sub : String) : Bool := containsL sub.data s.data

/-- Python `s.startswith(p)`. -/
def pyStartsWith (s p : String) : Bool := hasPrefixL p.data s.data

/-- Python `s.endswith(p)`. -/
def pyEndsWith (s p : String) : Bool := hasPrefixL p.data.reverse s.data.reverse

/-- Python `s[n:]`. -/
def pyDrop (s : String) (n : Nat) : String := ⟨s.data.drop n⟩

/-- Python `s[:n]` for `0 ≤ n`. -/
def pyTake (s : String) (n : Nat) : String := ⟨s.data.take n⟩

/-- Python `len(s)` (code points). -/
def pyLen (s : String) : Nat := s.data.length

/-- Python `sep.join(xs)`. -/
def pyJoin (sep : String) : List String → String
  | [] => ""
  | [x] => x
  | x :: y :: xs => x ++ sep ++ pyJoin sep (y :: xs)

/-- Python `s.upper()` (ASCII part). -/
def pyUpper (s : String) : String := ⟨s.data.map Char.toUpper⟩

/-- Decimal digit character. -/
def digitChar (n : Nat) : Char := Char.ofNat (48 + n % 10)

/-- Fuel-driven decimal printer (structural, kernel-evaluable). -/
def natDigits : Nat → Nat → List Char
  | 0, _ => []
  | fuel + 1, n => if n < 10 then [digitChar n] else natDigits fuel (n / 10) ++ [digitChar (n % 10)]

/-- Decimal rendering of a natural number, as in Python f-strings. -/
def natToStr (n : Nat) : String := ⟨natDigits (n + 1) n⟩

/-- A Python dict with string keys and values, as produced by `_parse_results`. -/
abbrev PyDict := List (String × String)

/-- Python `d.get(k)` (None for a missing key). -/
def pyGet (d : PyDict) (k : String) : Option String := List.lookup k d

/-- Python `d.get(k, default)`. -/
def pyGetD (d : PyDict) (k dflt : String) : String := (pyGet d k).getD dflt

/-! ### Data model (searchai/db/models.py) -/

/-- `OutputFormat` enum from models.py. -/
inductive OutputFormat
  | markdown
  | pdf
  | ppt
deriving DecidableEq

/-- A `user_queries` row (`UserQuery` in models.py). Ids are modelled as
naturals assigned by the store; timestamps are omitted. -/
structure QueryRow where
  id : Nat
  query_text : String
  output_format : OutputFormat
  status : String
deriving DecidableEq

/-- A `search_results` row (`SearchResult` in models.py). The three data
columns come from `result.get(...)` on a Python dict, hence are optional. -/
structure ResultRow where
  query_id : Nat
  source_url : Option String
  title : Option String
  snippet : Option String
deriving DecidableEq

/-- A `generated_documents` row (`GeneratedDocument` in models.py). -/
structure DocRow where
  query_id : Nat
  file_path : String
  format : OutputFormat
  file_size : Nat
deriving DecidableEq

/-- The relational store: the three tables plus the id counter. -/
structure DB where
  queries : List QueryRow
  results : List ResultRow
  documents : List DocRow
  nextId : Nat
deriving DecidableEq

/-- A freshly initialised store. -/
def dbEmpty : DB := ⟨[], [], [], 0⟩

/-- The exception taxonomy of searchai/utils/exceptions.py (plus Python's
built-in ValueError and KeyError, which the sources also raise). -/
inductive PyErr
  | searchError (msg : String)
  | databaseError (msg : String)
  | llmError (msg : String)
  | validationError (msg : String)
  | valueError (msg : String)
  | docGenError (msg : String)
  | keyError (msg : String)
deriving DecidableEq

/-- Python `str(e)` on the exceptions above: all carry their message. -/
def errMsg : PyErr → String
  | .searchError m => m
  | .databaseError m => m
  | .llmError m => m
  | .validationError m => m
  | .valueError m => m
  | .docGenError m => m
  | .keyError m => m

/-! ### Persistence gateway (searchai/db/db_handler.py) -/

/-- `OutputFormat[name]` enum lookup by member name (raises KeyError when
the name is unknown, modelled as `none`). -/
def formatOfName (s : String) : Option OutputFormat :=
  if s = "MARKDOWN" then some OutputFormat.markdown
  else if s = "PDF" then some OutputFormat.pdf
  else if s = "PPT" then some OutputFormat.ppt
  else none

/-- `log_user_query`: insert a new query row with status "pending"; an
unknown format string silently falls back to MARKDOWN (db_handler.py:125-129). -/
def log_user_query (db : DB) (query_text : String) (output_format : String) :
    DB × QueryRow :=
  let fmt := (formatOfName (pyUpper output_format)).getD OutputFormat.markdown
  let row : QueryRow := ⟨db.nextId, query_text, fmt, "pending"⟩
  ({ db with queries := db.queries ++ [row], nextId := db.nextId + 1 }, row)

/-- Effect of `UPDATE user_queries SET status = s WHERE id = qid` on one row. -/
def setStatus (qid : Nat) (status : String) (qr : QueryRow) : QueryRow :=
  if qr.id = qid then { qr with status := status } else qr

/-- `update_query_status`: a WHERE-filtered UPDATE; touching no row is a
silent success (db_handler.py:149-161). -/
def update_query_status (db : DB) (qid : Nat) (status : String) : DB :=
  { db with queries := db.queries.map (setStatus qid status) }

/-- `store_search_results`: bulk insert, reading each dict's `url`, `title`
and `snippet` keys via `.get` (db_handler.py:173-183). -/
def store_search_results (db : DB) (qid : Nat) (results : List PyDict) : DB :=
  { db with results := db.results ++ results.map (fun r =>
      ⟨qid, pyGet r "url", pyGet r "title", pyGet r "snippet"⟩) }

/-- `log_generated_document`: single insert; `OutputFormat[fmt.upper()]`
raises KeyError on an unknown format (db_handler.py:186-208). -/
def log_generated_document (db : DB) (qid : Nat) (file_path : String)
    (output_format : String) (file_size : Nat) : Except PyErr DB :=
  match formatOfName (pyUpper output_format) with
  | none => Except.error (PyErr.keyError output_format)
  | some f =>
      Except.ok { db with documents := db.documents ++ [⟨qid, file_path, f, file_size⟩] }

/-! ### Validation (searchai/utils/validation.py) -/

/-- `validate_query` (validation.py:84-103): reject empty/whitespace-only
input, then reject raw length > 500, otherwise return the stripped text. -/
def validate_query (query : String) : Except PyErr String :=
  if pyStrip query = "" then
    Except.error (PyErr.validationError "Search query cannot be empty")
  else if pyLen query > 500 then
    Except.error (PyErr.validationError "Search query too long (max 500 characters)")
  else
    Except.ok (pyStrip query)

/-! ### Search client (searchai/search/crew_search.py) -/

/-- The marker checked by `_parse_results` (crew_search.py:160). -/
def noInternetMarker : String := "do not have direct access to the internet"

/-- `SEARCH_TIMEOUT` from config.py. -/
def SEARCH_TIMEOUT : Nat := 60

/-- One iteration of the section loop of `_parse_results`
(crew_search.py:171-193): URL from the first line, title from the first
non-blank later line, summary from the rest; `none` models `continue`. -/
def parseSection (s : String) : Option PyDict :=
  let url := "http" ++ pyStrip ((pySplit s "\n").headD "")
  let lines := (((pySplit s "\n").drop 1).map pyStrip).filter (fun l => l != "")
  match lines with
  | [] => none
  | title :: rest =>
      let summary := if rest.isEmpty then "No summary available" else pyJoin " " rest
      some [("title", title), ("url", url), ("summary", summary)]

/-- `_parse_results` (crew_search.py:148-212): no-internet marker short
circuit, split on "http", parse each section, fall back to a single raw
result when nothing parses. -/
def _parse_results (raw : String) : List PyDict :=
  if pyContainsStr raw noInternetMarker then
    [[("title", "Error: No Internet Access"), ("url", "N/A"),
      ("summary", "The search agent does not have internet access. Please check your Serper API key configuration.")]]
  else
    let results := ((pySplit raw "http").drop 1).filterMap parseSection
    if results.isEmpty then
      [[("title", "Search Results"), ("url", "N/A"), ("summary", raw)]]
    else results

/-- Outcome of the external crew/Serper backend call (`_run_crew` plus the
`asyncio.wait_for` wrapper): it can time out, raise, or return raw text. -/
inductive SearchOutcome
  | timeout
  | backendError (msg : String)
  | ok (raw : String)
deriving DecidableEq

/-- `CrewSearchEngine.search` (crew_search.py:106-146): validate, run the
backend with a timeout, parse, and reject an empty parse. A validation
error is re-wrapped by the final `except Exception` clause; a backend
exception is wrapped once by `_run_crew` and once more by `search`. -/
def search (backend : SearchOutcome) (query : String) : Except PyErr (List PyDict) :=
  match validate_query query with
  | Except.error e =>
      Except.error (PyErr.searchError ("Search operation failed: " ++ errMsg e))
  | Except.ok _ =>
      match backend with
      | SearchOutcome.timeout =>
          Except.error (PyErr.searchError
            ("Search timed out after " ++ natToStr SEARCH_TIMEOUT ++ " seconds"))
      | SearchOutcome.backendError m =>
          Except.error (PyErr.searchError
            ("Search operation failed: Search operation failed: " ++ m))
      | SearchOutcome.ok raw =>
          let rs := _parse_results raw
          if rs.isEmpty then Except.error (PyErr.searchError "No valid search results found")
          else Except.ok rs

/-- `perform_web_search` (crew_search.py:217-264): log the query (format
hardcoded to "markdown"), set status processing, search, store the
results, set status completed; on any failure inside the inner try, set
status failed and raise `SearchError(str(e))`. -/
def perform_web_search (backend : SearchOutcome) (db : DB) (query : String) :
    DB × Except PyErr (List PyDict) :=
  let p := log_user_query db query "markdown"
  let db2 := update_query_status p.1 p.2.id "processing"
  match search backend query with
  | Except.error e =>
      (update_query_status db2 p.2.id "failed",
       Except.error (PyErr.searchError (errMsg e)))
  | Except.ok results =>
      let db3 := store_search_results db2 p.2.id results
      (update_query_status db3 p.2.id "completed", Except.ok results)

/-! ### Content generator client (searchai/reasoning/gemini_llm.py) -/

/-- The fenced-code-block post-processing of `process_with_gemini`
(gemini_llm.py:336-344). -/
def strip_fences (content : String) : String :=
  let c0 := pyStrip content
  let c1 := if pyStartsWith c0 "```markdown" then pyStrip (pyDrop c0 11) else c0
  let c2 := if pyStartsWith c1 "```" then pyStrip (pyDrop c1 3) else c1
  if pyEndsWith c2 "```" then pyStrip (pyTake c2 (pyLen c2 - 3)) else c2

/-- Outcome of the external Gemini call inside `generate_content`. -/
inductive GenOutcome
  | timeout
  | backendError (msg : String)
  | ok (text : String)
deriving DecidableEq

/-- `process_with_gemini` (gemini_llm.py:301-350): generation errors are
re-wrapped by the trailing `except Exception` clause; a timeout gets its
own message; successful text has fence wrapping stripped. -/
def process_with_gemini (gen : GenOutcome) : Except PyErr String :=
  match gen with
  | GenOutcome.timeout =>
      Except.error (PyErr.llmError "LLM processing timed out after 300 seconds")
  | GenOutcome.backendError m =>
      Except.error (PyErr.llmError
        ("Unexpected error during LLM processing: Content generation failed: " ++ m))
  | GenOutcome.ok t =>
      if t = "" then
        Except.error (PyErr.llmError
          "Unexpected error during LLM processing: Model generated empty response")
      else Except.ok (strip_fences t)

/-- The `results_text` loop of `_create_prompt` (gemini_llm.py:128-133):
one "Source i" block per result, reading `title`, `url` and `snippet`
keys with defaults. -/
def promptSources (results : List PyDict) : String :=
  (List.enumFrom 1 results).foldl (fun acc p =>
    acc ++ "Source " ++ natToStr p.1 ++ ":\n" ++
    "Title: " ++ pyGetD p.2 "title" "Untitled" ++ "\n" ++
    "URL: " ++ pyGetD p.2 "url" "No URL" ++ "\n" ++
    "Summary: " ++ pyGetD p.2 "snippet" "No description" ++ "\n\n") ""

/-! ### Document render stage and CLI pipeline (searchai/cli/interface.py) -/

/-- Outcome of a renderer run (the external file-writing side). -/
inductive RenderOutcome
  | ok (file_path : String) (file_size : Nat)
  | fail (msg : String)
deriving DecidableEq

/-- Modelled from the spec: the document renderers (`searchai/document_gen`,
imported by interface.py but absent from the available sources). Per the
spec, a renderer accepts the generated content and a destination
identifier, writes the file, and a `GeneratedDocumentRecord` belonging to
the Query is logged with the requested format, file path and byte size; a
renderer failure raises an error (DocumentGenerationError). -/
def render_document (rend : RenderOutcome) (db : DB) (qid : Nat) (format : String) :
    DB × Except PyErr String :=
  match rend with
  | RenderOutcome.fail m => (db, Except.error (PyErr.docGenError m))
  | RenderOutcome.ok path size =>
      match log_generated_document db qid path format size with
      | Except.error e => (db, Except.error e)
      | Except.ok db2 => (db2, Except.ok path)

/-- `process_search` (interface.py:42-117): search via `perform_web_search`,
guard against empty results and error-prefixed content, generate with
Gemini, then dispatch on the format string to a renderer; renderer errors
are wrapped as `ValueError("Document generation failed: ...")`; no status
update happens after `perform_web_search` returns. -/
def process_search (backend : SearchOutcome) (gen : GenOutcome) (rend : RenderOutcome)
    (db : DB) (query : String) (format : String) : DB × Except PyErr Unit :=
  let qid := db.nextId
  match perform_web_search backend db query with
  | (db1, Except.error e) => (db1, Except.error e)
  | (db1, Except.ok results) =>
    if results.isEmpty then (db1, Except.error (PyErr.valueError "No search results found"))
    else
      match process_with_gemini gen with
      | Except.error e => (db1, Except.error e)
      | Except.ok content =>
        if content == "" || pyStartsWith content "Error:" then
          (db1, Except.error (PyErr.valueError ("Content generation failed: " ++ content)))
        else
          if format == "markdown" || format == "pdf" || format == "ppt" then
            match render_document rend db1 qid format with
            | (db2, Except.error e) =>
                (db2, Except.error (PyErr.valueError ("Document generation failed: " ++ errMsg e)))
            | (db2, Except.ok _) => (db2, Except.ok ())
          else (db1, Except.ok ())

/-! ### Observers -/

/-- Status of the query row with a given id (first match, like a lookup). -/
def statusOf (db : DB) (qid : Nat) : Option String :=
  (db.queries.find? (fun qr => qr.id == qid)).map QueryRow.status

/-- Stored output format of the query row with a given id. -/
def formatOf (db : DB) (qid : Nat) : Option OutputFormat :=
  (db.queries.find? (fun qr => qr.id == qid)).map QueryRow.output_format

/-- The backtick character (used by the fence-stripping lemmas). -/
def btick : Char := Char.ofNat 96

/-- `strip_fences` transported to char lists (same code, `String.mk` removed);
`strip_fences_mk` connects the two. -/
def stripFencesL (l : List Char) : List Char :=
  let c0 := trimL l
  let c1 := if hasPrefixL ("```markdown").data c0 then trimL (c0.drop 11) else c0
  let c2 := if hasPrefixL ("```").data c1 then trimL (c1.drop 3) else c1
  if hasPrefixL ("```").data.reverse c2.reverse then trimL (c2.take (c2.length - 3)) else c2

/-- The store produced by the failure path of `perform_web_search`
(composition of the embedded operations, used to state path equations). -/
def pwsFailDB (db : DB) (q : String) : DB :=
  update_query_status
    (update_query_status (log_user_query db q "markdown").1 db.nextId "processing")
    db.nextId "failed"

/-- The store produced by the success path of `perform_web_search`. -/
def pwsOkDB (db : DB) (q : String) (rs : List PyDict) : DB :=
  update_query_status
    (store_search_results
      (update_query_status (log_user_query db q "markdown").1 db.nextId "processing")
      db.nextId rs)
    db.nextId "completed"

/-! ### General helper lemmas -/

theorem length_dropWhile_le' {α : Type} (p : α → Bool) (l : List α) :
    (l.dropWhile p).length ≤ l.length := by
  induction l with
  | nil => simp
  | cons a t ih =>
    rw [List.dropWhile_cons]
    split
    · exact Nat.le_succ_of_le ih
    · simp

theorem dropWhile_eq_self_of_length {α : Type} (p : α → Bool) (l : List α)
    (h : (l.dropWhile p).length = l.length) : l.dropWhile p = l := by
  induction l with
  | nil => simp
  | cons a t ih =>
    rw [List.dropWhile_cons] at h ⊢
    split at h
    · exfalso
      have hle := length_dropWhile_le' p t
      simp at h
      omega
    · rw [if_neg (by assumption)]

theorem setStatus_id (qid : Nat) (s : String) (qr : QueryRow) :
    (setStatus qid s qr).id = qr.id := by
  unfold setStatus
  split <;> rfl

theorem map_setStatus_of_ne (l : List QueryRow) (qid : Nat) (s : String)
    (h : ∀ qr ∈ l, qr.id ≠ qid) : l.map (setStatus qid s) = l := by
  induction l with
  | nil => rfl
  | cons a t ih =>
    have ha : a.id ≠ qid := h a (List.mem_cons_self a t)
    simp only [List.map_cons, ih (fun qr hm => h qr (List.mem_cons_of_mem a hm))]
    unfold setStatus
    rw [if_neg ha]

theorem find?_setStatus_of_mem (l : List QueryRow) (qid : Nat) (s : String)
    (h : ∃ qr ∈ l, qr.id = qid) :
    ((l.map (setStatus qid s)).find? (fun qr => qr.id == qid)).map QueryRow.status = some s := by
  induction l with
  | nil => simp at h
  | cons a t ih =>
    by_cases ha : a.id = qid
    · rw [List.map_cons, List.find?_cons_of_pos]
      · simp [setStatus, ha]
      · simp [setStatus, ha]
    · rw [List.map_cons, List.find?_cons_of_neg]
      · apply ih
        obtain ⟨qr, hm, hq⟩ := h
        rcases List.mem_cons.mp hm with h0 | hmt
        · exact absurd (h0 ▸ hq) ha
        · exact ⟨qr, hmt, hq⟩
      · simp [setStatus, ha]

theorem statusOf_update_of_mem (db : DB) (qid : Nat) (s : String)
    (h : ∃ qr ∈ db.queries, qr.id = qid) :
    statusOf (update_query_status db qid s) qid = some s :=
  find?_setStatus_of_mem db.queries qid s h

theorem find?_append_of_none {α : Type} (p : α → Bool) (l₁ l₂ : List α)
    (h : l₁.find? p = none) : (l₁ ++ l₂).find? p = l₂.find? p := by
  rw [List.find?_append, h, Option.none_or]

theorem find?_append_of_some {α : Type} (p : α → Bool) (l₁ l₂ : List α) (a : α)
    (h : l₁.find? p = some a) : (l₁ ++ l₂).find? p = some a := by
  rw [List.find?_append, h]
  rfl

theorem splitSkip_no_match (sep acc s : List Char)
    (h : containsL sep s = false) :
    splitSkip sep acc 0 s = [acc.reverse ++ s] := by
  induction s generalizing acc with
  | nil => simp [splitSkip]
  | cons c cs ih =>
    unfold containsL at h
    simp only [Bool.or_eq_false_iff] at h
    unfold splitSkip
    rw [if_neg (by simp [h.1])]
    rw [ih (c :: acc) h.2]
    simp

theorem pySplit_of_not_contains (raw sep : String)
    (h : pyContainsStr raw sep = false) : pySplit raw sep = [raw] := by
  unfold pyContainsStr at h
  unfold pySplit splitL
  rw [splitSkip_no_match sep.data [] raw.data h]
  simp

theorem length_filterMap_of_all_some {α β : Type} (f : α → Option β) (l : List α)
    (h : ∀ x ∈ l, f x ≠ none) : (l.filterMap f).length = l.length := by
  induction l with
  | nil => rfl
  | cons a t ih =>
    rw [List.filterMap_cons]
    cases hf : f a with
    | none => exact absurd hf (h a (List.mem_cons_self a t))
    | some b =>
      simp only [List.length_cons]
      rw [ih (fun x hx => h x (List.mem_cons_of_mem a hx))]

theorem parse_results_ne_nil (raw : String) : _parse_results raw ≠ [] := by
  unfold _parse_results
  split
  · simp
  · simp only []
    split
    · simp
    · rename_i hres
      simpa using hres

theorem search_ok_ne_nil (b : SearchOutcome) (q : String) (rs : List PyDict)
    (h : search b q = Except.ok rs) : rs.isEmpty = false := by
  unfold search at h
  split at h
  · simp at h
  · split at h
    · simp at h
    · simp at h
    · simp only [] at h
      split at h
      · simp at h
      · rename_i hres
        simp only [Except.ok.injEq] at h
        subst h
        simpa using hres

/-! ### Pipeline path lemmas -/

theorem pws_fail (backend : SearchOutcome) (db : DB) (q : String) (e : PyErr)
    (hs : search backend q = Except.error e) :
    perform_web_search backend db q =
      (pwsFailDB db q, Except.error (PyErr.searchError (errMsg e))) := by
  unfold perform_web_search pwsFailDB
  rw [hs]
  rfl

theorem pws_ok (backend : SearchOutcome) (db : DB) (q : String) (rs : List PyDict)
    (hs : search backend q = Except.ok rs) :
    perform_web_search backend db q = (pwsOkDB db q rs, Except.ok rs) := by
  unfold perform_web_search pwsOkDB
  rw [hs]
  rfl

theorem pws_ok_inv (backend : SearchOutcome) (db : DB) (q : String) (rs : List PyDict)
    (h : (perform_web_search backend db q).2 = Except.ok rs) :
    search backend q = Except.ok rs := by
  cases hs : search backend q with
  | error e =>
    rw [pws_fail backend db q e hs] at h
    simp at h
  | ok rs' =>
    rw [pws_ok backend db q rs' hs] at h
    simp only [] at h
    rw [h]

theorem statusOf_pwsFailDB (db : DB) (q : String) :
    statusOf (pwsFailDB db q) db.nextId = some "failed" := by
  apply statusOf_update_of_mem
  refine ⟨setStatus db.nextId "processing" (log_user_query db q "markdown").2, ?_, ?_⟩
  · exact List.mem_map_of_mem _ (List.mem_append_right _ (List.mem_cons_self _ _))
  · rw [setStatus_id]
    rfl

theorem statusOf_pwsOkDB (db : DB) (q : String) (rs : List PyDict) :
    statusOf (pwsOkDB db q rs) db.nextId = some "completed" := by
  apply statusOf_update_of_mem
  refine ⟨setStatus db.nextId "processing" (log_user_query db q "markdown").2, ?_, ?_⟩
  · exact List.mem_map_of_mem _ (List.mem_append_right _ (List.mem_cons_self _ _))
  · rw [setStatus_id]
    rfl

theorem setStatus_of_id_ne (n : Nat) (s : String) (qr : QueryRow) (h : qr.id ≠ n) :
    setStatus n s qr = qr := by
  unfold setStatus
  rw [if_neg h]

theorem find?_double_set_other (l : List QueryRow) (row : QueryRow) (n m : Nat)
    (s1 s2 : String) (hm : m ≠ n) (hrow : row.id = n) :
    (((l ++ [row]).map (setStatus n s1)).map (setStatus n s2)).find? (fun qr => qr.id == m) =
      l.find? (fun qr => qr.id == m) := by
  have hpred : ∀ s : String, ((fun qr : QueryRow => qr.id == m) ∘ setStatus n s) =
      fun qr : QueryRow => qr.id == m := by
    intro s
    funext qr
    simp [Function.comp, setStatus_id]
  rw [List.find?_map, hpred, List.find?_map, hpred]
  have hrowpred : (row.id == m) = false := by
    simp [hrow, Ne.symm hm]
  cases hf : l.find? (fun qr => qr.id == m) with
  | none =>
    rw [find?_append_of_none _ _ _ hf]
    rw [List.find?_cons_of_neg _ (by simp [hrowpred])]
    simp
  | some x =>
    rw [find?_append_of_some _ _ _ x hf]
    have hx : x.id = m := by simpa using List.find?_some hf
    have hxn : x.id ≠ n := by rw [hx]; exact hm
    simp [setStatus_of_id_ne n s1 x hxn, setStatus_of_id_ne n s2 x hxn]

theorem find?_double_set_self (l : List QueryRow) (row : QueryRow) (n : Nat)
    (s1 s2 : String) (hrow : row.id = n) (hwf : ∀ qr ∈ l, qr.id ≠ n) :
    (((l ++ [row]).map (setStatus n s1)).map (setStatus n s2)).find? (fun qr => qr.id == n) =
      some (setStatus n s2 (setStatus n s1 row)) := by
  have hpred : ∀ s : String, ((fun qr : QueryRow => qr.id == n) ∘ setStatus n s) =
      fun qr : QueryRow => qr.id == n := by
    intro s
    funext qr
    simp [Function.comp, setStatus_id]
  rw [List.find?_map, hpred, List.find?_map, hpred]
  have hnone : l.find? (fun qr => qr.id == n) = none := by
    rw [List.find?_eq_none]
    intro x hx
    simp [hwf x hx]
  rw [find?_append_of_none _ _ _ hnone]
  rw [List.find?_cons_of_pos _ (by simp [hrow])]
  rfl

theorem statusOf_congr (db1 db2 : DB) (m : Nat) (h : db1.queries = db2.queries) :
    statusOf db1 m = statusOf db2 m := by
  unfold statusOf
  rw [h]

theorem formatOf_congr (db1 db2 : DB) (m : Nat) (h : db1.queries = db2.queries) :
    formatOf db1 m = formatOf db2 m := by
  unfold formatOf
  rw [h]

theorem pwsFailDB_queries (db : DB) (q : String) :
    (pwsFailDB db q).queries =
      ((db.queries ++ [(log_user_query db q "markdown").2]).map
        (setStatus db.nextId "processing")).map (setStatus db.nextId "failed") := rfl

theorem pwsOkDB_queries (db : DB) (q : String) (rs : List PyDict) :
    (pwsOkDB db q rs).queries =
      ((db.queries ++ [(log_user_query db q "markdown").2]).map
        (setStatus db.nextId "processing")).map (setStatus db.nextId "completed") := rfl

theorem statusOf_pwsFailDB_other (db : DB) (q : String) (m : Nat) (hm : m ≠ db.nextId) :
    statusOf (pwsFailDB db q) m = statusOf db m := by
  unfold statusOf
  rw [pwsFailDB_queries]
  rw [find?_double_set_other db.queries _ db.nextId m _ _ hm rfl]

theorem statusOf_pwsOkDB_other (db : DB) (q : String) (rs : List PyDict) (m : Nat)
    (hm : m ≠ db.nextId) :
    statusOf (pwsOkDB db q rs) m = statusOf db m := by
  unfold statusOf
  rw [pwsOkDB_queries]
  rw [find?_double_set_other db.queries _ db.nextId m _ _ hm rfl]

theorem statusOf_pws_other (backend : SearchOutcome) (db : DB) (q : String) (m : Nat)
    (hm : m ≠ db.nextId) :
    statusOf (perform_web_search backend db q).1 m = statusOf db m := by
  cases hs : search backend q with
  | error e =>
    rw [pws_fail backend db q e hs]
    exact statusOf_pwsFailDB_other db q m hm
  | ok rs =>
    rw [pws_ok backend db q rs hs]
    exact statusOf_pwsOkDB_other db q rs m hm

theorem pws_documents (backend : SearchOutcome) (db : DB) (q : String) :
    (perform_web_search backend db q).1.documents = db.documents := by
  cases hs : search backend q with
  | error e => rw [pws_fail backend db q e hs]; rfl
  | ok rs => rw [pws_ok backend db q rs hs]; rfl

theorem log_generated_document_queries (db : DB) (qid : Nat) (path fmt : String)
    (size : Nat) (db2 : DB)
    (h : log_generated_document db qid path fmt size = Except.ok db2) :
    db2.queries = db.queries := by
  unfold log_generated_document at h
  split at h
  · simp at h
  · simp only [Except.ok.injEq] at h
    rw [← h]

theorem render_document_fst_queries (rend : RenderOutcome) (db : DB) (qid : Nat)
    (fmt : String) : (render_document rend db qid fmt).1.queries = db.queries := by
  unfold render_document
  split
  · rfl
  · rename_i path size
    split
    · rfl
    · rename_i db2 heq
      exact log_generated_document_queries db qid path fmt size db2 heq

theorem process_search_queries (backend : SearchOutcome) (gen : GenOutcome)
    (rend : RenderOutcome) (db : DB) (q fmt : String) :
    (process_search backend gen rend db q fmt).1.queries =
      (perform_web_search backend db q).1.queries := by
  unfold process_search
  rcases hp : perform_web_search backend db q with ⟨db1, r⟩
  cases r with
  | error e => rfl
  | ok results =>
    simp only []
    split
    · rfl
    · split
      · rfl
      · split
        · rfl
        · split
          · split
            · rename_i db2 e heq
              have h := render_document_fst_queries rend db1 db.nextId fmt
              rw [heq] at h
              exact h
            · rename_i db2 p heq
              have h := render_document_fst_queries rend db1 db.nextId fmt
              rw [heq] at h
              exact h
          · rfl

theorem process_search_documents (backend : SearchOutcome) (gen : GenOutcome)
    (rend : RenderOutcome) (db : DB) (q fmt : String) :
    (process_search backend gen rend db q fmt).1.documents = db.documents ∨
    ((∃ rs, search backend q = Except.ok rs) ∧
      ∃ path f size, formatOfName (pyUpper fmt) = some f ∧
        (process_search backend gen rend db q fmt).1.documents =
          db.documents ++ [⟨db.nextId, path, f, size⟩]) := by
  have hd1 := pws_documents backend db q
  unfold process_search
  rcases hp : perform_web_search backend db q with ⟨db1, r⟩
  rw [hp] at hd1
  cases r with
  | error e => exact Or.inl hd1
  | ok results =>
    have hsok : ∃ rs, search backend q = Except.ok rs :=
      ⟨results, pws_ok_inv backend db q results (by rw [hp])⟩
    simp only []
    split
    · exact Or.inl hd1
    · split
      · exact Or.inl hd1
      · split
        · exact Or.inl hd1
        · split
          · split
            · rename_i db2 e heq
              unfold render_document at heq
              split at heq
              · simp only [Prod.mk.injEq] at heq
                rw [← heq.1]
                exact Or.inl hd1
              · rename_i path size
                cases hlog : log_generated_document db1 db.nextId path fmt size with
                | error e2 =>
                  rw [hlog] at heq
                  simp only [] at heq
                  simp only [Prod.mk.injEq] at heq
                  rw [← heq.1]
                  exact Or.inl hd1
                | ok dbnew =>
                  rw [hlog] at heq
                  simp at heq
            · rename_i db2 p heq
              unfold render_document at heq
              split at heq
              · simp at heq
              · rename_i path size
                cases hlog : log_generated_document db1 db.nextId path fmt size with
                | error e2 =>
                  rw [hlog] at heq
                  simp at heq
                | ok dbnew =>
                  rw [hlog] at heq
                  simp only [] at heq
                  simp only [Prod.mk.injEq] at heq
                  unfold log_generated_document at hlog
                  split at hlog
                  · simp at hlog
                  · rename_i f hf
                    simp only [Except.ok.injEq] at hlog
                    refine Or.inr ⟨hsok, path, f, size, hf, ?_⟩
                    rw [← heq.1, ← hlog, ← hd1]
          · exact Or.inl hd1

theorem statusOf_some_elim (db : DB) (m : Nat) (s : String)
    (h : statusOf db m = some s) :
    ∃ qr ∈ db.queries, qr.id = m ∧ qr.status = s := by
  unfold statusOf at h
  cases hf : db.queries.find? (fun qr => qr.id == m) with
  | none => rw [hf] at h; simp at h
  | some qr =>
    rw [hf] at h
    simp only [Option.map_some', Option.some.injEq] at h
    exact ⟨qr, List.mem_of_find?_eq_some hf, by simpa using List.find?_some hf, h⟩

/-! ### Claims -/

set_option maxRecDepth 100000 in
/-- Claim C5, counterexample to the claim as stated: the input consisting of
one leading space followed by 500 letters has a trimmed form of exactly 500
characters (within the claimed 1..500 range), yet `validate_query` rejects
it, because the length check runs on the raw, untrimmed input. -/
theorem c5_counterexample :
    1 ≤ pyLen (pyStrip (String.mk (' ' :: List.replicate 500 'a'))) ∧
    pyLen (pyStrip (String.mk (' ' :: List.replicate 500 'a'))) ≤ 500 ∧
    validate_query (String.mk (' ' :: List.replicate 500 'a')) =
      Except.error (PyErr.validationError "Search query too long (max 500 characters)") := by
  decide

/-- Claim C5 (amended): for every input whose raw length is at most 500 and
whose trimmed form is non-empty, `validate_query` returns the trimmed text;
it fails exactly when the input is empty or whitespace-only or the raw
input exceeds 500 characters. -/
theorem c5_validate_query_amended (q : String) :
    (pyStrip q ≠ "" → pyLen q ≤ 500 → validate_query q = Except.ok (pyStrip q)) ∧
    ((∃ e, validate_query q = Except.error e) ↔ (pyStrip q = "" ∨ 500 < pyLen q)) := by
  unfold validate_query
  by_cases h1 : pyStrip q = ""
  · simp [h1]
  · by_cases h2 : 500 < pyLen q
    · constructor
      · intro _ hle
        omega
      · simp [h1, h2]
    · constructor
      · intro _ _
        rw [if_neg h1, if_neg h2]
      · simp [h1, h2]

/-- Witness for the amended C5 at a concrete input. -/
theorem c5_validate_query_amended_witness :
    validate_query " abc " = Except.ok "abc" := by
  have h := (c5_validate_query_amended " abc ").1 (by decide) (by decide)
  exact (by decide : pyStrip " abc " = "abc") ▸ h

/-- Claim C9: updating the status of a query id that matches no stored row
succeeds and leaves the store unchanged (the WHERE clause selects nothing). -/
theorem c9_update_status_missing_id_noop (db : DB) (qid : Nat) (s : String)
    (h : ∀ qr ∈ db.queries, qr.id ≠ qid) :
    update_query_status db qid s = db := by
  unfold update_query_status
  rw [map_setStatus_of_ne db.queries qid s h]

/-- Witness for C9 on a concrete store and missing id. -/
theorem c9_update_status_missing_id_noop_witness :
    update_query_status ⟨[⟨0, "q", OutputFormat.markdown, "pending"⟩], [], [], 1⟩ 5 "failed" =
      ⟨[⟨0, "q", OutputFormat.markdown, "pending"⟩], [], [], 1⟩ :=
  c9_update_status_missing_id_noop ⟨[⟨0, "q", OutputFormat.markdown, "pending"⟩], [], [], 1⟩ 5
    "failed" (by decide)

/-- Claim C10: `_parse_results` returns a non-empty list on every input, so
when validation succeeds and the backend call returns raw text, `search`
succeeds with the parsed results — the "No valid search results found"
branch is unreachable. -/
theorem c10_search_no_zero_results (raw q : String) :
    _parse_results raw ≠ [] ∧
    (∀ vq, validate_query q = Except.ok vq →
      search (SearchOutcome.ok raw) q = Except.ok (_parse_results raw)) := by
  refine ⟨parse_results_ne_nil raw, fun vq hv => ?_⟩
  unfold search
  rw [hv]
  show (if (_parse_results raw).isEmpty = true
      then Except.error (PyErr.searchError "No valid search results found")
      else Except.ok (_parse_results raw)) = Except.ok (_parse_results raw)
  rw [if_neg]
  simp [parse_results_ne_nil raw]

/-- Witness for C10 at a concrete raw text and query. -/
theorem c10_search_no_zero_results_witness :
    _parse_results "zzz" ≠ [] ∧
    search (SearchOutcome.ok "zzz") "ok" = Except.ok (_parse_results "zzz") :=
  ⟨(c10_search_no_zero_results "zzz" "ok").1,
   (c10_search_no_zero_results "zzz" "ok").2 "ok" (by decide)⟩

/-- Claim C6, counterexample to the claim as stated: the raw text
"do not have direct access to the internet" contains zero URL markers, yet
`_parse_results` does not return the fallback result wrapping the raw
text — it returns the special no-internet-access result instead. -/
theorem c6_counterexample :
    pyContainsStr noInternetMarker "http" = false ∧
    _parse_results noInternetMarker ≠
      [[("title", "Search Results"), ("url", "N/A"), ("summary", noInternetMarker)]] ∧
    _parse_results noInternetMarker =
      [[("title", "Error: No Internet Access"), ("url", "N/A"),
        ("summary", "The search agent does not have internet access. Please check your Serper API key configuration.")]] := by
  decide

/-- Claim C6 (amended): for raw text that does not contain the
no-internet-access marker, zero URL markers yield exactly the one fallback
result wrapping the raw text, and K ≥ 1 well-formed URL-prefixed segments
(each parsing to a structured result) yield exactly K structured results. -/
theorem c6_parse_results_amended (raw : String)
    (hni : pyContainsStr raw noInternetMarker = false) :
    (pyContainsStr raw "http" = false →
      _parse_results raw = [[("title", "Search Results"), ("url", "N/A"), ("summary", raw)]]) ∧
    (∀ K, 0 < K → ((pySplit raw "http").drop 1).length = K →
      (∀ sec ∈ (pySplit raw "http").drop 1, parseSection sec ≠ none) →
      (_parse_results raw).length = K) := by
  constructor
  · intro hh
    unfold _parse_results
    rw [if_neg (by simp [hni])]
    rw [pySplit_of_not_contains raw "http" hh]
    simp
  · intro K hK hlen hall
    unfold _parse_results
    rw [if_neg (by simp [hni])]
    have hlen2 : (((pySplit raw "http").drop 1).filterMap parseSection).length = K := by
      rw [length_filterMap_of_all_some parseSection _ hall]
      exact hlen
    show (if (((pySplit raw "http").drop 1).filterMap parseSection).isEmpty = true
        then [[("title", "Search Results"), ("url", "N/A"), ("summary", raw)]]
        else ((pySplit raw "http").drop 1).filterMap parseSection).length = K
    rw [if_neg]
    · exact hlen2
    · simp only [List.isEmpty_iff]
      intro hnil
      rw [hnil] at hlen2
      simp at hlen2
      omega

/-- Witness for the amended C6: a raw text with two well-formed segments. -/
theorem c6_parse_results_amended_witness :
    (_parse_results "pre http://x.com\nT1\nS1 http://y.com\nT2").length = 2 :=
  (c6_parse_results_amended "pre http://x.com\nT1\nS1 http://y.com\nT2" (by decide)).2 2
    (by decide) (by decide) (by decide)

theorem setStatus_output_format (n : Nat) (s : String) (qr : QueryRow) :
    (setStatus n s qr).output_format = qr.output_format := by
  unfold setStatus
  split <;> rfl

/-- Claim C1, counterexample to the claim as stated: in a full pipeline run
whose search stage succeeds but whose generation stage times out, the run
fails, yet the Query's status is "completed" — `perform_web_search` sets
completed right after the search results are stored, before generation and
rendering ever run. -/
theorem c1_counterexample :
    (process_search (SearchOutcome.ok "http://a.com\nT\nS") GenOutcome.timeout
      (RenderOutcome.ok "f.md" 3) dbEmpty "hello" "markdown").2 =
      Except.error (PyErr.llmError "LLM processing timed out after 300 seconds") ∧
    statusOf (process_search (SearchOutcome.ok "http://a.com\nT\nS") GenOutcome.timeout
      (RenderOutcome.ok "f.md" 3) dbEmpty "hello" "markdown").1 0 = some "completed" := by
  decide

/-- Claim C1 (amended): the status is set to completed as soon as the search
stage succeeds and its results are stored, before generation and rendering
run (so it is completed even when a later stage fails); a
GeneratedDocumentRecord is only ever logged for a Query whose status is
completed (render runs only after a successful search, which already marked
the query completed). -/
theorem c1_lifecycle_amended (backend : SearchOutcome) (gen : GenOutcome)
    (rend : RenderOutcome) (db : DB) (q fmt : String)
    (hwf : ∀ qr ∈ db.queries, qr.id < db.nextId)
    (hdocs : ∀ d ∈ db.documents, statusOf db d.query_id = some "completed") :
    ((∃ rs, search backend q = Except.ok rs) →
      statusOf (process_search backend gen rend db q fmt).1 db.nextId = some "completed") ∧
    (∀ d ∈ (process_search backend gen rend db q fmt).1.documents,
      statusOf (process_search backend gen rend db q fmt).1 d.query_id = some "completed") := by
  have hq := process_search_queries backend gen rend db q fmt
  constructor
  · rintro ⟨rs, hs⟩
    rw [statusOf_congr _ _ _ hq]
    rw [pws_ok backend db q rs hs]
    exact statusOf_pwsOkDB db q rs
  · intro d hd
    rcases process_search_documents backend gen rend db q fmt with hcase |
      ⟨⟨rs, hs⟩, path, f, size, hf, hcase⟩
    · rw [hcase] at hd
      have hst := hdocs d hd
      obtain ⟨qr, hqr, hid, _⟩ := statusOf_some_elim db d.query_id _ hst
      have hne : d.query_id ≠ db.nextId := by
        rw [← hid]
        exact Nat.ne_of_lt (hwf qr hqr)
      rw [statusOf_congr _ _ _ hq, statusOf_pws_other backend db q _ hne, hst]
    · rw [hcase] at hd
      rcases List.mem_append.mp hd with hdl | hdr
      · have hst := hdocs d hdl
        obtain ⟨qr, hqr, hid, _⟩ := statusOf_some_elim db d.query_id _ hst
        have hne : d.query_id ≠ db.nextId := by
          rw [← hid]
          exact Nat.ne_of_lt (hwf qr hqr)
        rw [statusOf_congr _ _ _ hq, statusOf_pws_other backend db q _ hne, hst]
      · rcases List.mem_singleton.mp hdr with rfl
        show statusOf (process_search backend gen rend db q fmt).1 db.nextId = some "completed"
        rw [statusOf_congr _ _ _ hq, pws_ok backend db q rs hs]
        exact statusOf_pwsOkDB db q rs

/-- Witness for the amended C1 on a concrete fully successful run. -/
theorem c1_lifecycle_amended_witness :
    statusOf (process_search (SearchOutcome.ok "http://w.com\nTW\nSW") (GenOutcome.ok "Body W")
      (RenderOutcome.ok "w.md" 4) dbEmpty "w query" "markdown").1 0 = some "completed" :=
  (c1_lifecycle_amended (SearchOutcome.ok "http://w.com\nTW\nSW") (GenOutcome.ok "Body W")
    (RenderOutcome.ok "w.md" 4) dbEmpty "w query" "markdown" (by decide) (by decide)).1
    ⟨_parse_results "http://w.com\nTW\nSW", by decide⟩

/-- Claim C2, counterexample to the claim as stated: when the generation
stage fails, the error is propagated but the Query's status is left at
"completed", not set to "failed". -/
theorem c2_counterexample :
    (process_search (SearchOutcome.ok "http://b.com\nT2\nS2") (GenOutcome.backendError "boom")
      (RenderOutcome.ok "g.md" 2) dbEmpty "hi there" "markdown").2 =
      Except.error (PyErr.llmError
        "Unexpected error during LLM processing: Content generation failed: boom") ∧
    statusOf (process_search (SearchOutcome.ok "http://b.com\nT2\nS2")
      (GenOutcome.backendError "boom") (RenderOutcome.ok "g.md" 2) dbEmpty "hi there"
      "markdown").1 0 = some "completed" := by
  decide

/-- Claim C2 (amended): a search-stage failure sets the status to failed and
surfaces a SearchError carrying the original message; a generation-stage
failure surfaces the generator's error unmodified but leaves the status at
completed; a render-stage failure leaves the status at completed and
surfaces the error re-wrapped as ValueError("Document generation failed:
..."). -/
theorem c2_stage_failures_amended (backend : SearchOutcome) (gen : GenOutcome)
    (db : DB) (q fmt : String) :
    (∀ m rend, search backend q = Except.error (PyErr.searchError m) →
      (process_search backend gen rend db q fmt).2 = Except.error (PyErr.searchError m) ∧
      statusOf (process_search backend gen rend db q fmt).1 db.nextId = some "failed") ∧
    (∀ rs e rend, search backend q = Except.ok rs →
      process_with_gemini gen = Except.error e →
      (process_search backend gen rend db q fmt).2 = Except.error e ∧
      statusOf (process_search backend gen rend db q fmt).1 db.nextId = some "completed") ∧
    (∀ rs content m, search backend q = Except.ok rs →
      process_with_gemini gen = Except.ok content → content ≠ "" →
      pyStartsWith content "Error:" = false →
      (fmt = "markdown" ∨ fmt = "pdf" ∨ fmt = "ppt") →
      (process_search backend gen (RenderOutcome.fail m) db q fmt).2 =
        Except.error (PyErr.valueError ("Document generation failed: " ++ m)) ∧
      statusOf (process_search backend gen (RenderOutcome.fail m) db q fmt).1 db.nextId =
        some "completed") := by
  refine ⟨?_, ?_, ?_⟩
  · intro m rend hs
    unfold process_search
    rw [pws_fail backend db q _ hs]
    exact ⟨rfl, statusOf_pwsFailDB db q⟩
  · intro rs e rend hs hg
    have hne := search_ok_ne_nil backend q rs hs
    unfold process_search
    rw [pws_ok backend db q rs hs]
    simp only []
    rw [if_neg (by simp [hne]), hg]
    exact ⟨rfl, statusOf_pwsOkDB db q rs⟩
  · intro rs content m hs hg hcne hpref hfmt
    have hne := search_ok_ne_nil backend q rs hs
    have hcond : (content == "" || pyStartsWith content "Error:") = false := by
      have h1 : (content == "") = false := beq_eq_false_iff_ne.mpr hcne
      rw [h1, hpref]
      rfl
    unfold process_search
    rw [pws_ok backend db q rs hs]
    simp only []
    rw [if_neg (by simp [hne]), hg]
    simp only []
    rw [if_neg (by simp [hcond])]
    rcases hfmt with rfl | rfl | rfl <;>
    · rw [if_pos (by decide)]
      exact ⟨rfl, statusOf_pwsOkDB db q rs⟩

/-- Witness for the amended C2 at a concrete timed-out search. -/
theorem c2_stage_failures_amended_witness :
    (process_search SearchOutcome.timeout GenOutcome.timeout (RenderOutcome.ok "x.md" 1)
      dbEmpty "hello w" "markdown").2 =
      Except.error (PyErr.searchError "Search timed out after 60 seconds") ∧
    statusOf (process_search SearchOutcome.timeout GenOutcome.timeout (RenderOutcome.ok "x.md" 1)
      dbEmpty "hello w" "markdown").1 0 = some "failed" :=
  (c2_stage_failures_amended SearchOutcome.timeout GenOutcome.timeout dbEmpty "hello w"
    "markdown").1 "Search timed out after 60 seconds" (RenderOutcome.ok "x.md" 1) (by decide)

/-- Claim C3, counterexample to the claim as stated: a pipeline run with
requested format "pdf" stores MARKDOWN on the Query record, because
`perform_web_search` hardcodes output_format="markdown" when logging the
query; the document record, by contrast, carries pdf. -/
theorem c3_counterexample :
    formatOf (process_search (SearchOutcome.ok "http://c.com\nT3\nS3") (GenOutcome.ok "Doc body")
      (RenderOutcome.ok "o.pdf" 7) dbEmpty "query three" "pdf").1 0 =
      some OutputFormat.markdown ∧
    (process_search (SearchOutcome.ok "http://c.com\nT3\nS3") (GenOutcome.ok "Doc body")
      (RenderOutcome.ok "o.pdf" 7) dbEmpty "query three" "pdf").1.documents =
      [⟨0, "o.pdf", OutputFormat.pdf, 7⟩] ∧
    OutputFormat.markdown ≠ OutputFormat.pdf := by
  decide

/-- Claim C3 (amended): the Query record always stores markdown as its
requested format, whatever format the caller asked for; any
GeneratedDocumentRecord logged during the run carries the caller's
requested format — so the two agree only for markdown requests. -/
theorem c3_format_amended (backend : SearchOutcome) (gen : GenOutcome)
    (rend : RenderOutcome) (db : DB) (q fmt : String)
    (hwf : ∀ qr ∈ db.queries, qr.id ≠ db.nextId) :
    formatOf (process_search backend gen rend db q fmt).1 db.nextId =
      some OutputFormat.markdown ∧
    (∀ d ∈ (process_search backend gen rend db q fmt).1.documents, d ∉ db.documents →
      formatOfName (pyUpper fmt) = some d.format) := by
  constructor
  · have hq := process_search_queries backend gen rend db q fmt
    rw [formatOf_congr _ _ _ hq]
    cases hs : search backend q with
    | error e =>
      rw [pws_fail backend db q e hs]
      unfold formatOf
      rw [pwsFailDB_queries, find?_double_set_self db.queries _ db.nextId _ _ rfl hwf]
      simp only [Option.map_some', Option.some.injEq]
      rw [setStatus_output_format, setStatus_output_format]
      show (formatOfName (pyUpper "markdown")).getD OutputFormat.markdown = OutputFormat.markdown
      decide
    | ok rs =>
      rw [pws_ok backend db q rs hs]
      unfold formatOf
      rw [pwsOkDB_queries, find?_double_set_self db.queries _ db.nextId _ _ rfl hwf]
      simp only [Option.map_some', Option.some.injEq]
      rw [setStatus_output_format, setStatus_output_format]
      show (formatOfName (pyUpper "markdown")).getD OutputFormat.markdown = OutputFormat.markdown
      decide
  · intro d hd hnew
    rcases process_search_documents backend gen rend db q fmt with hcase |
      ⟨_, path, f, size, hf, hcase⟩
    · rw [hcase] at hd
      exact absurd hd hnew
    · rw [hcase] at hd
      rcases List.mem_append.mp hd with hdl | hdr
      · exact absurd hdl hnew
      · rcases List.mem_singleton.mp hdr with rfl
        exact hf

/-- Witness for the amended C3 on a concrete pdf request. -/
theorem c3_format_amended_witness :
    formatOf (process_search (SearchOutcome.ok "http://v.com\nTV\nSV") (GenOutcome.ok "Body V")
      (RenderOutcome.ok "v.pdf" 9) dbEmpty "v query" "pdf").1 0 = some OutputFormat.markdown :=
  (c3_format_amended (SearchOutcome.ok "http://v.com\nTV\nSV") (GenOutcome.ok "Body V")
    (RenderOutcome.ok "v.pdf" 9) dbEmpty "v query" "pdf" (by decide)).1

/-- Claim C8: a search-backend timeout surfaces as a SearchError with the
timeout message, the Query's status becomes failed, and no SearchResultRecord
rows are created. -/
theorem c8_search_timeout (db : DB) (q vq : String)
    (hv : validate_query q = Except.ok vq) :
    (perform_web_search SearchOutcome.timeout db q).2 =
      Except.error (PyErr.searchError "Search timed out after 60 seconds") ∧
    statusOf (perform_web_search SearchOutcome.timeout db q).1 db.nextId = some "failed" ∧
    (perform_web_search SearchOutcome.timeout db q).1.results = db.results := by
  have hs : search SearchOutcome.timeout q =
      Except.error (PyErr.searchError "Search timed out after 60 seconds") := by
    unfold search
    rw [hv]
    show Except.error (PyErr.searchError
        ("Search timed out after " ++ natToStr SEARCH_TIMEOUT ++ " seconds")) =
      Except.error (PyErr.searchError "Search timed out after 60 seconds")
    decide
  rw [pws_fail SearchOutcome.timeout db q _ hs]
  exact ⟨rfl, statusOf_pwsFailDB db q, rfl⟩

/-- Witness for C8 on a concrete store and query. -/
theorem c8_search_timeout_witness :
    (perform_web_search SearchOutcome.timeout dbEmpty "hello").2 =
      Except.error (PyErr.searchError "Search timed out after 60 seconds") ∧
    statusOf (perform_web_search SearchOutcome.timeout dbEmpty "hello").1 0 = some "failed" ∧
    (perform_web_search SearchOutcome.timeout dbEmpty "hello").1.results = [] :=
  c8_search_timeout dbEmpty "hello" "hello" (by decide)

/-- Claim C4 (code bug witness): the parser emits each result's text under
the key "summary", but `store_search_results` stores `result.get('snippet')`
(which is always None) and the prompt builder prints
`result.get('snippet', 'No description')` — so the stored snippet column is
always empty and the prompt never carries the parsed summary. -/
theorem c4_snippet_key_mismatch :
    _parse_results "http://a.com\nTitle A\nSummary text" =
      [[("title", "Title A"), ("url", "http://a.com"), ("summary", "Summary text")]] ∧
    pyGet [("title", "Title A"), ("url", "http://a.com"), ("summary", "Summary text")] "snippet" =
      none ∧
    (store_search_results dbEmpty 0
        [[("title", "Title A"), ("url", "http://a.com"), ("summary", "Summary text")]]).results =
      [⟨0, some "http://a.com", some "Title A", none⟩] ∧
    promptSources [[("title", "Title A"), ("url", "http://a.com"), ("summary", "Summary text")]] =
      "Source 1:\nTitle: Title A\nURL: http://a.com\nSummary: No description\n\n" := by
  decide

/-! ### Fence-stripping lemmas and remaining claims -/

theorem string_eq_of_data (a b : String) (h : a.data = b.data) : a = b := by
  cases a
  cases b
  exact congrArg String.mk h

theorem strip_fences_mk (l : List Char) : strip_fences ⟨l⟩ = ⟨stripFencesL l⟩ := by
  apply string_eq_of_data
  unfold strip_fences stripFencesL pyStrip pyStartsWith pyEndsWith pyDrop pyTake pyLen
  dsimp only []
  simp only [apply_ite String.data]

theorem hasPrefixL_append_self (p r : List Char) : hasPrefixL p (p ++ r) = true := by
  induction p with
  | nil => rfl
  | cons a ps ih => simp [hasPrefixL, ih]

theorem hasPrefixL_append_same (l p s : List Char) :
    hasPrefixL (l ++ p) (l ++ s) = hasPrefixL p s := by
  induction l with
  | nil => rfl
  | cons a t ih => simp [hasPrefixL, ih]

theorem hasPrefixL_cons_head_ne (p : Char) (ps : List Char) (c : Char) (cs : List Char)
    (h : p ≠ c) : hasPrefixL (p :: ps) (c :: cs) = false := by
  have hpc : (p == c) = false := beq_eq_false_iff_ne.mpr h
  simp [hasPrefixL, hpc]

theorem hasPrefixL_false_of_head_ne (p : Char) (ps s : List Char)
    (h : ∀ c ∈ s, p ≠ c) : hasPrefixL (p :: ps) s = false := by
  cases s with
  | nil => rfl
  | cons c cs => exact hasPrefixL_cons_head_ne p ps c cs (h c (List.mem_cons_self c cs))

theorem dropWhile_append_of_head (p : Char → Bool) (l r : List Char)
    (hl : l.dropWhile p = l) (hne : l ≠ []) :
    (l ++ r).dropWhile p = l ++ r := by
  cases l with
  | nil => exact absurd rfl hne
  | cons c t =>
    rw [List.dropWhile_cons] at hl
    split at hl
    · exfalso
      have hle := length_dropWhile_le' p t
      rw [hl] at hle
      simp at hle
    · rename_i hc
      rw [List.cons_append, List.dropWhile_cons, if_neg hc]

theorem trimL_cons_space (c : Char) (xs : List Char) (hc : isSpace c = true) :
    trimL (c :: xs) = trimL xs := by
  unfold trimL
  rw [List.dropWhile_cons, if_pos hc]

theorem trimL_eq_self_parts (bl : List Char) (h : trimL bl = bl) :
    bl.dropWhile isSpace = bl ∧ bl.reverse.dropWhile isSpace = bl.reverse := by
  unfold trimL at h
  have hlen1 : (bl.dropWhile isSpace).length ≤ bl.length := length_dropWhile_le' _ _
  have hlen2 : ((bl.dropWhile isSpace).reverse.dropWhile isSpace).length ≤
      (bl.dropWhile isSpace).length := by
    have := length_dropWhile_le' isSpace (bl.dropWhile isSpace).reverse
    simpa using this
  have hlen0 : ((bl.dropWhile isSpace).reverse.dropWhile isSpace).length = bl.length := by
    have h' : (((bl.dropWhile isSpace).reverse.dropWhile isSpace).reverse).length = bl.length := by
      rw [h]
    simpa using h'
  have e1 : (bl.dropWhile isSpace).length = bl.length := by omega
  have hd1 : bl.dropWhile isSpace = bl := dropWhile_eq_self_of_length _ _ e1
  refine ⟨hd1, ?_⟩
  rw [hd1] at hlen0
  have hlen0' : (bl.reverse.dropWhile isSpace).length = bl.reverse.length := by
    simpa using hlen0
  exact dropWhile_eq_self_of_length _ _ hlen0'

theorem trimL_eq_self_append_end (l r : List Char) (hl : l.dropWhile isSpace = l)
    (hlne : l ≠ []) (hr : ∀ c, r.getLast? = some c → isSpace c = false) (hrne : r ≠ []) :
    trimL (l ++ r) = l ++ r := by
  unfold trimL
  rw [dropWhile_append_of_head isSpace l r hl hlne]
  rw [List.reverse_append]
  have hdw : (r.reverse ++ l.reverse).dropWhile isSpace = r.reverse ++ l.reverse := by
    cases hr' : r.reverse with
    | nil => exact absurd (by simpa using hr') hrne
    | cons d rr =>
      have hd : isSpace d = false := by
        apply hr
        rw [← List.head?_reverse, hr']
        rfl
      rw [List.cons_append, List.dropWhile_cons, if_neg (by simp [hd])]
  rw [hdw, List.reverse_append, List.reverse_reverse, List.reverse_reverse]

theorem trimL_append_nl (l : List Char) (hfront : l.dropWhile isSpace = l) (hlne : l ≠ [])
    (hback : l.reverse.dropWhile isSpace = l.reverse) :
    trimL (l ++ ['\n']) = l := by
  unfold trimL
  rw [dropWhile_append_of_head isSpace l ['\n'] hfront hlne]
  rw [List.reverse_append]
  rw [show (['\n'] : List Char).reverse = ['\n'] from rfl]
  rw [List.singleton_append, List.dropWhile_cons, if_pos (by decide)]
  rw [hback, List.reverse_reverse]

theorem mem_of_mem_dropWhile (p : Char → Bool) (l : List Char) (x : Char)
    (h : x ∈ l.dropWhile p) : x ∈ l := by
  induction l with
  | nil => simp at h
  | cons a t ih =>
    rw [List.dropWhile_cons] at h
    split at h
    · exact List.mem_cons_of_mem a (ih h)
    · exact h

theorem mem_of_mem_trimL (l : List Char) (x : Char) (h : x ∈ trimL l) : x ∈ l := by
  unfold trimL at h
  rw [List.mem_reverse] at h
  have h2 := mem_of_mem_dropWhile _ _ _ h
  rw [List.mem_reverse] at h2
  exact mem_of_mem_dropWhile _ _ _ h2

theorem strip_fences_no_btick (s : String) (h : btick ∉ s.data) :
    strip_fences s = pyStrip s := by
  obtain ⟨l⟩ := s
  rw [strip_fences_mk]
  unfold stripFencesL
  have h0 : ∀ c ∈ trimL l, btick ≠ c := by
    intro c hc he
    exact h (he ▸ mem_of_mem_trimL l c hc)
  have hc1 : hasPrefixL ("```markdown").data (trimL l) = false := by
    rw [show ("```markdown").data = btick :: ("``markdown").data from by decide]
    exact hasPrefixL_false_of_head_ne btick _ _ h0
  have hc2 : hasPrefixL ("```").data (trimL l) = false := by
    rw [show ("```").data = btick :: [btick, btick] from by decide]
    exact hasPrefixL_false_of_head_ne btick _ _ h0
  have hc3 : hasPrefixL ("```").data.reverse (trimL l).reverse = false := by
    rw [show ("```").data.reverse = btick :: [btick, btick] from by decide]
    apply hasPrefixL_false_of_head_ne
    intro c hc
    exact h0 c (List.mem_reverse.mp hc)
  simp only [hc1, hc2, hc3, if_false, Bool.false_eq_true]
  rfl

theorem lastNonSpace_of_eq_btick (r : List Char) (h : r.getLast? = some btick) :
    ∀ c, r.getLast? = some c → isSpace c = false := by
  intro c hc
  rw [h] at hc
  injection hc with h2
  rw [← h2]
  decide

theorem hasPrefixL_btick_block (ps bl r : List Char) (hbl : bl ≠ []) (hbt : btick ∉ bl) :
    hasPrefixL (btick :: ps) (bl ++ r) = false := by
  cases bl with
  | nil => exact absurd rfl hbl
  | cons c t =>
    rw [List.cons_append]
    exact hasPrefixL_cons_head_ne btick ps c _ (fun he => hbt (he ▸ List.mem_cons_self c t))

theorem c7_block_last (bl : List Char) :
    ('\n' :: (bl ++ '\n' :: ("```").data)).getLast? = some btick := by
  rw [show ("```").data = [btick, btick, btick] from by decide]
  rw [show '\n' :: (bl ++ '\n' :: [btick, btick, btick]) =
      ('\n' :: (bl ++ ['\n', btick, btick])) ++ [btick] from by simp]
  exact List.getLast?_concat _

theorem c7_trim_mid (bl : List Char) (h1 : bl.dropWhile isSpace = bl) (hbl : bl ≠ []) :
    trimL ('\n' :: (bl ++ '\n' :: ("```").data)) = bl ++ '\n' :: ("```").data := by
  rw [trimL_cons_space _ _ (by decide)]
  exact trimL_eq_self_append_end bl ('\n' :: ("```").data) h1 hbl
    (lastNonSpace_of_eq_btick _ (by decide)) (by simp)

theorem c7_cond3 (bl : List Char) :
    hasPrefixL ("```").data.reverse (bl ++ '\n' :: ("```").data).reverse = true := by
  rw [show ("```").data = [btick, btick, btick] from by decide]
  rw [show (bl ++ '\n' :: [btick, btick, btick]).reverse =
      btick :: btick :: btick :: ('\n' :: bl.reverse) from by simp]
  rw [show ([btick, btick, btick] : List Char).reverse = [btick, btick, btick] from by decide]
  simp [hasPrefixL]

theorem c7_take (bl : List Char) :
    (bl ++ '\n' :: ("```").data).take ((bl ++ '\n' :: ("```").data).length - 3) =
      bl ++ ['\n'] := by
  have hlen : (bl ++ '\n' :: ("```").data).length - 3 = bl.length + 1 := by
    rw [List.length_append, List.length_cons, show ("```").data.length = 3 from by decide]
    omega
  rw [hlen, List.take_append 1]
  rw [show List.take 1 ('\n' :: ("```").data) = ['\n'] from by decide]

theorem stripFencesL_tail (Y : List Char) (hfront : Y.dropWhile isSpace = Y) (hYne : Y ≠ [])
    (hback : Y.reverse.dropWhile isSpace = Y.reverse) :
    (if hasPrefixL ("```").data.reverse (Y ++ '\n' :: ("```").data).reverse
      then trimL ((Y ++ '\n' :: ("```").data).take ((Y ++ '\n' :: ("```").data).length - 3))
      else Y ++ '\n' :: ("```").data) = Y := by
  rw [c7_cond3 Y, if_pos rfl, c7_take Y]
  exact trimL_append_nl Y hfront hYne hback

theorem c7_cond2_false (bl r : List Char) (hbl : bl ≠ []) (hbt : btick ∉ bl) :
    hasPrefixL ("```").data (bl ++ r) = false := by
  rw [show ("```").data = btick :: [btick, btick] from by decide]
  exact hasPrefixL_btick_block _ bl r hbl hbt

theorem c7_drop3 (X : List Char) : (("```").data ++ X).drop 3 = X := by
  rw [show (3 : Nat) = ("```").data.length from by decide]
  exact List.drop_left _ _

theorem c7_drop11 (X : List Char) : (("```markdown").data ++ X).drop 11 = X := by
  rw [show (11 : Nat) = ("```markdown").data.length from by decide]
  exact List.drop_left _ _

theorem stripFencesL_md (bl : List Char) (h1 : bl.dropWhile isSpace = bl)
    (h2 : bl.reverse.dropWhile isSpace = bl.reverse) (hbl : bl ≠ []) (hbt : btick ∉ bl) :
    stripFencesL (("```markdown").data ++ '\n' :: (bl ++ '\n' :: ("```").data)) = bl := by
  unfold stripFencesL
  simp only []
  have e0 : trimL (("```markdown").data ++ '\n' :: (bl ++ '\n' :: ("```").data)) =
      ("```markdown").data ++ '\n' :: (bl ++ '\n' :: ("```").data) :=
    trimL_eq_self_append_end _ _ (by decide) (by decide)
      (lastNonSpace_of_eq_btick _ (c7_block_last bl)) (by simp)
  rw [e0]
  rw [hasPrefixL_append_self, if_pos rfl]
  rw [c7_drop11, c7_trim_mid bl h1 hbl]
  rw [c7_cond2_false bl _ hbl hbt, if_neg Bool.false_ne_true]
  exact stripFencesL_tail bl h1 hbl h2

theorem stripFencesL_bare (bl : List Char) (h1 : bl.dropWhile isSpace = bl)
    (h2 : bl.reverse.dropWhile isSpace = bl.reverse) (hbl : bl ≠ []) :
    stripFencesL (("```").data ++ '\n' :: (bl ++ '\n' :: ("```").data)) = bl := by
  unfold stripFencesL
  simp only []
  have e0 : trimL (("```").data ++ '\n' :: (bl ++ '\n' :: ("```").data)) =
      ("```").data ++ '\n' :: (bl ++ '\n' :: ("```").data) :=
    trimL_eq_self_append_end _ _ (by decide) (by decide)
      (lastNonSpace_of_eq_btick _ (c7_block_last bl)) (by simp)
  rw [e0]
  have hc1 : hasPrefixL ("```markdown").data
      (("```").data ++ '\n' :: (bl ++ '\n' :: ("```").data)) = false := by
    rw [show ("```markdown").data = ("```").data ++ ("markdown").data from by decide]
    rw [hasPrefixL_append_same]
    rw [show ("markdown").data = 'm' :: ("arkdown").data from by decide]
    exact hasPrefixL_cons_head_ne _ _ _ _ (by decide)
  rw [hc1, if_neg Bool.false_ne_true]
  rw [hasPrefixL_append_self, if_pos rfl]
  rw [c7_drop3, c7_trim_mid bl h1 hbl]
  exact stripFencesL_tail bl h1 hbl h2

theorem stripFencesL_py (bl : List Char) (_h1 : bl.dropWhile isSpace = bl)
    (h2 : bl.reverse.dropWhile isSpace = bl.reverse) (hbl : bl ≠ []) :
    stripFencesL (("```python").data ++ '\n' :: (bl ++ '\n' :: ("```").data)) =
      ("python").data ++ '\n' :: bl := by
  unfold stripFencesL
  simp only []
  have e0 : trimL (("```python").data ++ '\n' :: (bl ++ '\n' :: ("```").data)) =
      ("```python").data ++ '\n' :: (bl ++ '\n' :: ("```").data) :=
    trimL_eq_self_append_end _ _ (by decide) (by decide)
      (lastNonSpace_of_eq_btick _ (c7_block_last bl)) (by simp)
  rw [e0]
  have hc1 : hasPrefixL ("```markdown").data
      (("```python").data ++ '\n' :: (bl ++ '\n' :: ("```").data)) = false := by
    rw [show ("```python").data = ("```").data ++ ("python").data from by decide,
      show ("```markdown").data = ("```").data ++ ("markdown").data from by decide,
      List.append_assoc, hasPrefixL_append_same,
      show ("markdown").data = 'm' :: ("arkdown").data from by decide,
      show ("python").data = 'p' :: ("ython").data from by decide,
      List.cons_append]
    exact hasPrefixL_cons_head_ne _ _ _ _ (by decide)
  rw [hc1, if_neg Bool.false_ne_true]
  have hc2 : hasPrefixL ("```").data
      (("```python").data ++ '\n' :: (bl ++ '\n' :: ("```").data)) = true := by
    rw [show ("```python").data = ("```").data ++ ("python").data from by decide,
      List.append_assoc]
    exact hasPrefixL_append_self _ _
  rw [hc2, if_pos rfl]
  have hdrop : (("```python").data ++ '\n' :: (bl ++ '\n' :: ("```").data)).drop 3 =
      ("python").data ++ '\n' :: (bl ++ '\n' :: ("```").data) := by
    rw [show ("```python").data = ("```").data ++ ("python").data from by decide,
      List.append_assoc]
    exact c7_drop3 _
  rw [hdrop]
  have emid : trimL (("python").data ++ '\n' :: (bl ++ '\n' :: ("```").data)) =
      ("python").data ++ '\n' :: (bl ++ '\n' :: ("```").data) :=
    trimL_eq_self_append_end _ _ (by decide) (by decide)
      (lastNonSpace_of_eq_btick _ (c7_block_last bl)) (by simp)
  rw [emid]
  rw [show ("python").data ++ '\n' :: (bl ++ '\n' :: ("```").data) =
      (("python").data ++ '\n' :: bl) ++ '\n' :: ("```").data from by simp]
  apply stripFencesL_tail (("python").data ++ '\n' :: bl)
  · exact dropWhile_append_of_head isSpace _ _ (by decide) (by decide)
  · simp
  · rw [show (("python").data ++ '\n' :: bl).reverse =
        bl.reverse ++ ('\n' :: ("python").data.reverse) from by simp]
    exact dropWhile_append_of_head isSpace _ _ h2 (by simpa using hbl)

/-- Claim C7, counterexample to the claim as stated: for a fence with a
"python" language tag, only the backticks are removed — the tag stays as the
first line of the returned content; and unwrapped content does not pass
through unchanged: its surrounding whitespace is stripped. -/
theorem c7_counterexample :
    strip_fences "```python\ncode\n```" = "python\ncode" ∧
    strip_fences "```python\ncode\n```" ≠ "code" ∧
    strip_fences "  plain  " = "plain" ∧
    strip_fences "  plain  " ≠ "  plain  " := by
  decide

/-- Claim C7 (amended): for fenced content the backtick markers are stripped
and whitespace trimmed; a "markdown" tag after the opening fence is removed
too, but any other tag (e.g. "python") remains part of the returned content;
content without backticks is returned trimmed but otherwise unchanged. -/
theorem c7_strip_fences_amended (body : String)
    (hb : pyStrip body = body) (hne : body ≠ "") (hbt : btick ∉ body.data) :
    strip_fences ("```markdown" ++ "\n" ++ body ++ "\n" ++ "```") = body ∧
    strip_fences ("```" ++ "\n" ++ body ++ "\n" ++ "```") = body ∧
    strip_fences ("```python" ++ "\n" ++ body ++ "\n" ++ "```") = "python" ++ "\n" ++ body ∧
    (∀ s : String, btick ∉ s.data → strip_fences s = pyStrip s) := by
  obtain ⟨bl⟩ := body
  have hbl : bl ≠ [] := by
    intro h
    apply hne
    rw [h]
  have htr : trimL bl = bl := by
    have h' := congrArg String.data hb
    exact h'
  obtain ⟨h1, h2⟩ := trimL_eq_self_parts bl htr
  have hbt' : btick ∉ bl := hbt
  have hdata : ∀ (a : String), (a ++ "\n" ++ String.mk bl ++ "\n" ++ "```").data
      = a.data ++ '\n' :: (bl ++ '\n' :: ("```").data) := by
    intro a
    rw [String.data_append, String.data_append, String.data_append, String.data_append]
    rw [show ("\n").data = ['\n'] from by decide]
    simp
  refine ⟨?_, ?_, ?_, ?_⟩
  · have hfull : ("```markdown" ++ "\n" ++ String.mk bl ++ "\n" ++ "```") =
        ⟨("```markdown").data ++ '\n' :: (bl ++ '\n' :: ("```").data)⟩ :=
      string_eq_of_data _ _ (hdata "```markdown")
    rw [hfull, strip_fences_mk]
    exact congrArg String.mk (stripFencesL_md bl h1 h2 hbl hbt')
  · have hfull : ("```" ++ "\n" ++ String.mk bl ++ "\n" ++ "```") =
        ⟨("```").data ++ '\n' :: (bl ++ '\n' :: ("```").data)⟩ :=
      string_eq_of_data _ _ (hdata "```")
    rw [hfull, strip_fences_mk]
    exact congrArg String.mk (stripFencesL_bare bl h1 h2 hbl)
  · have hfull : ("```python" ++ "\n" ++ String.mk bl ++ "\n" ++ "```") =
        ⟨("```python").data ++ '\n' :: (bl ++ '\n' :: ("```").data)⟩ :=
      string_eq_of_data _ _ (hdata "```python")
    rw [hfull, strip_fences_mk]
    apply string_eq_of_data
    rw [show (("python" : String) ++ "\n" ++ (⟨bl⟩ : String)).data =
        ("python").data ++ '\n' :: bl from by
      rw [String.data_append, String.data_append,
        show ("\n").data = ['\n'] from by decide]
      simp]
    exact stripFencesL_py bl h1 h2 hbl
  · intro s hs
    exact strip_fences_no_btick s hs

/-- Witness for the amended C7 at a concrete fenced body. -/
theorem c7_strip_fences_amended_witness :
    strip_fences ("```markdown" ++ "\n" ++ "hello" ++ "\n" ++ "```") = "hello" :=
  (c7_strip_fences_amended "hello" (by decide) (by decide) (by decide)).1

end Searchai
